import Mathlib

/-!
Shallow embedding of the `polaris-rbx/verify` client (files `ratelimit.js`,
the index module, and `HttpError.js`).

JavaScript numbers are modelled as `ℤ` where the program only handles
integral millisecond timestamps and counters; the one place the source
performs a real division (the `retryAfter` computation in the run
operation of the bucket) is modelled in `ℚ`.  `Date.now()` is modelled by an explicit `now`
parameter threaded into each operation.  JS `undefined` and general JS
values are modelled by `JSValue`; object fields that may be absent are
`Option`s.  The HTTP collaborator (`node-fetch`) is modelled as a pure
function from the request URI to a response; the client state records the
list of requests handed to it, so that "no network call was issued" is
expressible.
-/

/-- A JavaScript value as far as this program inspects values:
`undefined`, `null`, numbers, strings and booleans. -/
inductive JSValue where
  | undefined
  | null
  | num (n : ℤ)
  | str (s : String)
  | bool (b : Bool)
  deriving DecidableEq, Repr

/-- JavaScript truthiness for `JSValue` (`undefined`, `null`, `0`, `""`,
`false` are falsy). -/
def truthy : JSValue → Bool
  | .undefined => false
  | .null => false
  | .num n => n ≠ 0
  | .str s => s ≠ ""
  | .bool b => b

/-- The error object shapes this program reads off a parsed JSON body
(`json.error`): `status`, `message`, `retryAfter`, `isLocal`, each possibly
absent. -/
structure ErrObj where
  status : Option ℤ
  message : Option String
  retryAfter : Option ℤ
  isLocal : Option Bool
  deriving DecidableEq, Repr

/-- A parsed JSON response body, restricted to the fields the client
reads: `robloxId`, `discordId` and `error`. -/
structure JsonBody where
  robloxId : JSValue
  discordId : JSValue
  error : Option ErrObj
  deriving DecidableEq, Repr

/-- A response from the HTTP collaborator: status code and parsed body.
`res.ok` is not stored: fetch defines it as `200 <= status < 300`. -/
structure HttpResponse where
  status : ℤ
  body : JsonBody
  deriving DecidableEq, Repr

/-- The fetch field `res.ok`: status in the inclusive range 200–299. -/
def respOk (status : ℤ) : Bool := 200 ≤ status && status < 300

/-- The thrown errors of the program (`HttpError.js` plus the bare
`Error(res)` and the TypeError that a 429 body without an `error` field
would raise on `json.error.retryAfter`).  `ratelimitError` is the
`RatelimitError` class: status, message, `retryAfter` and `isLocal`;
`httpError` is its parent `HttpError`. -/
inductive VerifyError where
  | ratelimitError (status : Option ℤ) (message : String) (retryAfter : Option ℚ) (isLocal : Bool)
  | httpError (status : Option ℤ) (message : String)
  | typeError
  | unclassified
  deriving DecidableEq, Repr

/-- JS string interpolation of a possibly-undefined number
(template `${error.status}`). -/
def jsNumToString : Option ℤ → String
  | some n => toString n
  | none => "undefined"

/-- The message of `HttpError`: `error.message || error.status + ": Verification
API Error"` (the `||` falls through on an absent or empty message). -/
def errMessage (e : ErrObj) : String :=
  match e.message with
  | some m => if m = "" then jsNumToString e.status ++ ": Verification API Error" else m
  | none => jsNumToString e.status ++ ": Verification API Error"

/-- `new HttpError(error)`. -/
def httpErrorOf (e : ErrObj) : VerifyError := .httpError e.status (errMessage e)

/-- `new RatelimitError(error)`: adds `retryAfter = error.retryAfter` and
`isLocal = error.isLocal || false`. -/
def ratelimitErrorOf (e : ErrObj) : VerifyError :=
  .ratelimitError e.status (errMessage e) (e.retryAfter.map (fun r => (r : ℚ))) (e.isLocal.getD false)

/-- The state held in the closure of `makeRatelimit`, together with its fixed
parameters: `limitNo`/`limitPeriod` are the construction arguments,
`since` and `requestsMade` the mutable variables (both initialised to 0). -/
structure Bucket where
  limitNo : ℤ
  limitPeriod : ℤ
  since : ℤ
  requestsMade : ℤ
  deriving DecidableEq, Repr

/-- `makeRatelimit(limitNo, limitPeriod)`: fresh bucket with `since = 0`,
`requestsMade = 0`. -/
def makeRatelimit (limitNo limitPeriod : ℤ) : Bucket :=
  { limitNo := limitNo, limitPeriod := limitPeriod, since := 0, requestsMade := 0 }

/-- The bucket operation `run()` at time `now`.  A throw leaves the closure state
unchanged, so the result pairs the outcome with the state after the call:
  * window active (`now - since < limitPeriod*1000`) and
    `requestsMade >= limitNo`: throw `RatelimitError` with
    `retryAfter = ((since + limitPeriod*1000) - now)/1000 + 5`,
    `isLocal = true`; state unchanged;
  * window active, below limit: `requestsMade++`;
  * window expired: `requestsMade = 0; since = now;` then `requestsMade++`. -/
def Bucket.run (now : ℤ) (b : Bucket) : Except VerifyError Unit × Bucket :=
  if now - b.since < b.limitPeriod * 1000 then
    if b.requestsMade ≥ b.limitNo then
      (.error (.ratelimitError (some 429) "Too many requests"
        (some ((((b.since + b.limitPeriod * 1000) - now : ℤ) : ℚ) / 1000 + 5)) true), b)
    else (.ok (), { b with requestsMade := b.requestsMade + 1 })
  else (.ok (), { b with since := now, requestsMade := 1 })

/-- The bucket operation `trigger(retryAfter)` at time `now`:
`requestsMade = limitNo; since = now + retryAfter * 1000`. -/
def Bucket.trigger (retryAfter : ℤ) (now : ℤ) (b : Bucket) : Bucket :=
  { b with requestsMade := b.limitNo, since := now + retryAfter * 1000 }

/-- A sequence of `run()` calls at the given times; an exception aborts the
sequence, leaving the state the throw left. -/
def runList (ts : List ℤ) (b : Bucket) : Except VerifyError Unit × Bucket :=
  match ts with
  | [] => (.ok (), b)
  | t :: ts' =>
    match Bucket.run t b with
    | (.ok _, b') => runList ts' b'
    | (.error e, b') => (.error e, b')

/-- A cache entry as stored by `setCache`: the item and its expiry time. -/
structure CacheEntry where
  item : JSValue
  expires : ℤ
  deriving DecidableEq, Repr

/-- `Map.prototype.set`: replace the entry under the key if present,
otherwise append it. -/
def mapSet (k : String) (v : CacheEntry) : List (String × CacheEntry) → List (String × CacheEntry)
  | [] => [(k, v)]
  | (k', v') :: rest => if k' = k then (k, v) :: rest else (k', v') :: mapSet k v rest

/-- A request handed to the HTTP collaborator: the resolved URL and the
headers object built by `makeRequest` (a list of key/value pairs, values
being JS values since the `authorization` key may hold `undefined`). -/
structure Request where
  url : String
  headers : List (String × JSValue)
  deriving DecidableEq, Repr

/-- The module-level mutable state of the client: the options set by
`setOptions`, the two buckets, and the cache `Map`.  `requests` is the
observation trace: the list of requests issued to the HTTP collaborator,
in order. -/
structure ClientState where
  useLog : Bool
  token : Option String
  cacheTime : ℤ
  globalRatelimit : Bucket
  reverseRatelimit : Bucket
  cache : List (String × CacheEntry)
  requests : List Request
  deriving DecidableEq, Repr

/-- The initial module state: `useLog = false`, no token,
`cacheTime = 60`, `makeRateLimit(60, 60)` and `makeRateLimit(30, 60)`,
empty cache, no requests issued. -/
def initialState : ClientState :=
  { useLog := false, token := none, cacheTime := 60
    globalRatelimit := makeRatelimit 60 60
    reverseRatelimit := makeRatelimit 30 60
    cache := [], requests := [] }

/-- The argument object of `setOptions`, with each field possibly absent. -/
structure Options where
  useLog : Option Bool
  token : Option String
  cacheTime : Option ℤ
  deriving DecidableEq, Repr

/-- `setOptions(opt)`: each field is copied only when truthy
(`if (opt.useLog) ...; if (opt.token) ...; if (opt.cacheTime) ...`). -/
def setOptions (opt : Options) (st : ClientState) : ClientState :=
  let st1 := match opt.useLog with
    | some b => if b then { st with useLog := b } else st
    | none => st
  let st2 := match opt.token with
    | some t => if t ≠ "" then { st1 with token := some t } else st1
    | none => st1
  match opt.cacheTime with
  | some c => if c ≠ 0 then { st2 with cacheTime := c } else st2
  | none => st2

/-- `getCache(id)` at time `now`: the stored item if present and
`expires > now`, otherwise `undefined`.  Reading never mutates the map. -/
def getCache (now : ℤ) (st : ClientState) (id : String) : JSValue :=
  match st.cache.lookup id with
  | some e => if e.expires > now then e.item else .undefined
  | none => .undefined

/-- `setCache(id, item)` at time `now`: store the item with
`expires = now + cacheTime * 1000`. -/
def setCache (now : ℤ) (id : String) (item : JSValue) (st : ClientState) : ClientState :=
  { st with cache := mapSet id { item := item, expires := now + st.cacheTime * 1000 } st.cache }

/-- `BASE_URL` of the client module. -/
def BASE_URL : String := "https://verify.nezto.re"

/-- The JS value held by the mutable `token` variable (`undefined` until a
token is configured). -/
def jsOfOptStr : Option String → JSValue
  | some t => .str t
  | none => .undefined

/-- `json.error.retryAfter || 3000`: the retry hint handed to `trigger`,
falling back to 3000 when the field is absent or 0. -/
def retryHint (e : ErrObj) : ℤ :=
  match e.retryAfter with
  | some r => if r = 0 then 3000 else r
  | none => 3000

/-- The request object built by `makeRequest`: url `BASE_URL + uri` and
the headers object `{authorization: token}` (the key is present whether or
not a token is configured; its value is the token variable). -/
def requestOf (tok : Option String) (uri : String) : Request :=
  { url := BASE_URL ++ uri, headers := [("authorization", jsOfOptStr tok)] }

/-- `makeRequest(uri)` at time `now` against the collaborator `http`:
run the global bucket, build `{headers: {authorization: token}}`, fetch
`BASE_URL + uri` (recorded in the trace), parse the body, then:
`res.ok` → return the body; 429 → `globalRatelimit.trigger(json.error.retryAfter
|| 3000)` and throw `RatelimitError(json.error)`; 404 → return `undefined`
(modelled `none`); `json.error` present → throw `HttpError(json.error)`;
otherwise throw a bare `Error`. -/
def makeRequest (http : String → HttpResponse) (now : ℤ) (uri : String) (st : ClientState) :
    Except VerifyError (Option JsonBody) × ClientState :=
  match Bucket.run now st.globalRatelimit with
  | (.error e, g) => (.error e, { st with globalRatelimit := g })
  | (.ok _, g) =>
    let st1 : ClientState :=
      { st with
        globalRatelimit := g
        requests := st.requests ++ [requestOf st.token uri] }
    let res := http uri
    let json := res.body
    if respOk res.status then (.ok (some json), st1)
    else if res.status = 429 then
      match json.error with
      | some e =>
        (.error (ratelimitErrorOf e),
          { st1 with globalRatelimit := Bucket.trigger (retryHint e) now st1.globalRatelimit })
      | none => (.error .typeError, st1)
    else if res.status = 404 then (.ok none, st1)
    else
      match json.error with
      | some e => (.error (httpErrorOf e), st1)
      | none => (.error .unclassified, st1)

/-- `getRoblox(discordId)` at time `now`: cache key `"d-" + discordId`;
a truthy cached item is returned at once; otherwise `makeRequest` to
`/api/roblox/{discordId}`; a falsy result (`if (!full) return;`) is
returned as `undefined` WITHOUT caching; otherwise `ret = full.robloxId`
is cached and returned. -/
def getRoblox (http : String → HttpResponse) (now : ℤ) (discordId : String)
    (st : ClientState) : Except VerifyError JSValue × ClientState :=
  let cacheKey := "d-" ++ discordId
  let cachedItem := getCache now st cacheKey
  if truthy cachedItem then (.ok cachedItem, st)
  else
    match makeRequest http now ("/api/roblox/" ++ discordId) st with
    | (.error e, st') => (.error e, st')
    | (.ok none, st') => (.ok .undefined, st')
    | (.ok (some full), st') =>
      let ret := full.robloxId
      (.ok ret, setCache now cacheKey ret st')

/-- `getDiscord(robloxId)` at time `now`: cache key `"r-" + robloxId`;
a truthy cached item is returned at once; otherwise `reverseRatelimit.run()`
first, then `makeRequest` to `/api/reverse/{robloxId}`; a falsy result is
returned as `undefined` without caching; otherwise `ret = full.discordId`
is cached and returned. -/
def getDiscord (http : String → HttpResponse) (now : ℤ) (robloxId : String)
    (st : ClientState) : Except VerifyError JSValue × ClientState :=
  let cacheKey := "r-" ++ robloxId
  let cachedItem := getCache now st cacheKey
  if truthy cachedItem then (.ok cachedItem, st)
  else
    match Bucket.run now st.reverseRatelimit with
    | (.error e, r) => (.error e, { st with reverseRatelimit := r })
    | (.ok _, r) =>
      match makeRequest http now ("/api/reverse/" ++ robloxId) { st with reverseRatelimit := r } with
      | (.error e, st') => (.error e, st')
      | (.ok none, st') => (.ok .undefined, st')
      | (.ok (some full), st') =>
        let ret := full.discordId
        (.ok ret, setCache now cacheKey ret st')


/-- A mock collaborator answering 404 with an empty body to every
request. -/
def http404 : String → HttpResponse := fun _ => ⟨404, ⟨.undefined, .undefined, none⟩⟩

/-- A mock collaborator answering 200 with an empty body to every
request. -/
def httpOkEmpty : String → HttpResponse := fun _ => ⟨200, ⟨.undefined, .undefined, none⟩⟩

/-- A mock collaborator answering 429 with `{error: {retryAfter: 5}}` to
every request. -/
def http429r5 : String → HttpResponse :=
  fun _ => ⟨429, ⟨.undefined, .undefined, some ⟨none, none, some 5, none⟩⟩⟩

/-- Simp lemmas for the record updates of `Bucket.trigger`. -/
theorem trigger_since (r t0 : ℤ) (b : Bucket) :
    (Bucket.trigger r t0 b).since = t0 + r * 1000 := rfl

theorem trigger_requestsMade (r t0 : ℤ) (b : Bucket) :
    (Bucket.trigger r t0 b).requestsMade = b.limitNo := rfl

theorem trigger_limitNo (r t0 : ℤ) (b : Bucket) :
    (Bucket.trigger r t0 b).limitNo = b.limitNo := rfl

theorem trigger_limitPeriod (r t0 : ℤ) (b : Bucket) :
    (Bucket.trigger r t0 b).limitPeriod = b.limitPeriod := rfl

/-- Helper: the throwing branch of `run` (window active, at or above the
limit): the `RatelimitError` is thrown and the state is unchanged. -/
theorem Bucket.run_throw (b : Bucket) (now : ℤ)
    (hwin : now - b.since < b.limitPeriod * 1000)
    (hcount : b.limitNo ≤ b.requestsMade) :
    Bucket.run now b =
      (.error (.ratelimitError (some 429) "Too many requests"
        (some ((((b.since + b.limitPeriod * 1000) - now : ℤ) : ℚ) / 1000 + 5)) true), b) := by
  unfold Bucket.run
  rw [if_pos hwin, if_pos hcount]

/-- Helper: the expired branch of `run`: reset then increment. -/
theorem Bucket.run_reset (b : Bucket) (now : ℤ)
    (h : b.limitPeriod * 1000 ≤ now - b.since) :
    Bucket.run now b = (.ok (), { b with since := now, requestsMade := 1 }) := by
  unfold Bucket.run
  rw [if_neg (not_lt.2 h)]

/-- Helper: the incrementing branch of `run` (window active, below the
limit). -/
theorem Bucket.run_incr (b : Bucket) (now : ℤ)
    (hwin : now - b.since < b.limitPeriod * 1000)
    (hcount : b.requestsMade < b.limitNo) :
    Bucket.run now b = (.ok (), { b with requestsMade := b.requestsMade + 1 }) := by
  unfold Bucket.run
  rw [if_pos hwin, if_neg (not_le.2 hcount)]

/-- C6: when the window has expired at the time of a `run()` call
(`now - windowStart >= periodSeconds * 1000`), the call succeeds whatever
the prior count, and afterwards `count = 1` and `windowStart = now`. -/
theorem c6_run_expired_resets (b : Bucket) (now : ℤ)
    (h : b.limitPeriod * 1000 ≤ now - b.since) :
    Bucket.run now b = (.ok (), { b with since := now, requestsMade := 1 }) :=
  Bucket.run_reset b now h

theorem c6_witness :
    Bucket.run 60000 ⟨60, 60, 0, 5⟩ = (.ok (), ⟨60, 60, 60000, 1⟩) :=
  c6_run_expired_resets ⟨60, 60, 0, 5⟩ 60000 (by decide)

/-- C7: a local `run()` failure (window active, `count >= limit`) raises
`RateLimitExceeded` carrying
`retryAfterSeconds = (windowStart + periodSeconds*1000 - now)/1000 + 5`
and `isLocal = true`, leaving the bucket unchanged. -/
theorem c7_local_failure_payload (b : Bucket) (now : ℤ)
    (hwin : now - b.since < b.limitPeriod * 1000)
    (hcount : b.limitNo ≤ b.requestsMade) :
    Bucket.run now b =
      (.error (.ratelimitError (some 429) "Too many requests"
        (some ((((b.since + b.limitPeriod * 1000) - now : ℤ) : ℚ) / 1000 + 5)) true), b) :=
  Bucket.run_throw b now hwin hcount

theorem c7_witness :
    Bucket.run 30000 ⟨60, 60, 0, 60⟩ =
      (.error (.ratelimitError (some 429) "Too many requests" (some 35) true), ⟨60, 60, 0, 60⟩) := by
  have h := c7_local_failure_payload ⟨60, 60, 0, 60⟩ 30000 (by decide) (by decide)
  rw [h]
  norm_num

/-- C2: after `trigger(r)` at time `t0`, a `run()` at any time
`t₁ < t0 + (r + periodSeconds)*1000` (including immediately) fails with the
local `RateLimitExceeded` and leaves the bucket state unchanged — so every
call in that span fails — while a `run()` at any
`t₂ >= t0 + (r + periodSeconds)*1000` succeeds (resetting the window). -/
theorem c2_trigger_blocks (b : Bucket) (r t0 t₁ t₂ : ℤ)
    (h1 : t₁ < t0 + (r + b.limitPeriod) * 1000)
    (h2 : t0 + (r + b.limitPeriod) * 1000 ≤ t₂) :
    (∃ q : ℚ, Bucket.run t₁ (Bucket.trigger r t0 b) =
      (.error (.ratelimitError (some 429) "Too many requests" (some q) true),
       Bucket.trigger r t0 b)) ∧
    Bucket.run t₂ (Bucket.trigger r t0 b) =
      (.ok (), { limitNo := b.limitNo, limitPeriod := b.limitPeriod,
                 since := t₂, requestsMade := 1 }) := by
  constructor
  · exact ⟨_, Bucket.run_throw _ _
      (by rw [trigger_since, trigger_limitPeriod]; omega)
      (by rw [trigger_requestsMade, trigger_limitNo])⟩
  · rw [Bucket.run_reset _ _ (by rw [trigger_since, trigger_limitPeriod]; omega),
      trigger_limitNo, trigger_limitPeriod]

theorem c2_witness :
    (∃ q : ℚ, Bucket.run 100000 (Bucket.trigger 10 100000 ⟨60, 60, 0, 0⟩) =
      (.error (.ratelimitError (some 429) "Too many requests" (some q) true),
       Bucket.trigger 10 100000 ⟨60, 60, 0, 0⟩)) ∧
    Bucket.run 170000 (Bucket.trigger 10 100000 ⟨60, 60, 0, 0⟩) =
      (.ok (), ⟨60, 60, 170000, 1⟩) :=
  c2_trigger_blocks ⟨60, 60, 0, 0⟩ 10 100000 100000 170000 (by decide) (by decide)

/-- Helper: a sequence of in-window `run()` calls that stays within the
limit succeeds and adds exactly one to the counter per call. -/
theorem runList_ok (limit period since : ℤ) :
    ∀ (ts : List ℤ) (c : ℤ),
      (∀ t ∈ ts, t - since < period * 1000) →
      c + (ts.length : ℤ) ≤ limit →
      runList ts ⟨limit, period, since, c⟩ =
        (.ok (), ⟨limit, period, since, c + (ts.length : ℤ)⟩) := by
  intro ts
  induction ts with
  | nil => intro c _ _; simp [runList]
  | cons t ts ih =>
    intro c hin hle
    have hwin : t - since < period * 1000 := hin t (List.mem_cons_self t ts)
    have hcount : c < limit := by
      have : (0 : ℤ) ≤ ((ts.length : ℤ) : ℤ) := Int.ofNat_nonneg _
      simp [List.length_cons] at hle
      omega
    have hrun := Bucket.run_incr ⟨limit, period, since, c⟩ t hwin hcount
    have hih := ih (c + 1) (fun u hu => hin u (List.mem_cons_of_mem t hu)) (by
      simp [List.length_cons] at hle; omega)
    unfold runList
    simp only [hrun, hih]
    congr 2
    push_cast [List.length_cons]
    ring

/-- C3: within one active window, starting from `count = 0`, each of the
first `limit` calls to `run()` succeeds and increments the counter by
exactly one (the prefix property), and the `(limit+1)`-th in-window call
fails with `RateLimitExceeded` leaving the counter unchanged. -/
theorem c3_window_fills_then_fails (limit period since : ℤ) (ts : List ℤ) (t' : ℤ)
    (_hpos : 0 < limit)
    (hlen : (ts.length : ℤ) = limit)
    (hin : ∀ t ∈ ts, t - since < period * 1000)
    (hin' : t' - since < period * 1000) :
    (∀ n : ℕ, n ≤ ts.length →
      runList (ts.take n) ⟨limit, period, since, 0⟩ =
        (.ok (), ⟨limit, period, since, (n : ℤ)⟩)) ∧
    runList ts ⟨limit, period, since, 0⟩ = (.ok (), ⟨limit, period, since, limit⟩) ∧
    (∃ q : ℚ, Bucket.run t' ⟨limit, period, since, limit⟩ =
      (.error (.ratelimitError (some 429) "Too many requests" (some q) true),
       ⟨limit, period, since, limit⟩)) := by
  have htake : ∀ n : ℕ, n ≤ ts.length →
      runList (ts.take n) ⟨limit, period, since, 0⟩ =
        (.ok (), ⟨limit, period, since, (n : ℤ)⟩) := by
    intro n hn
    have h := runList_ok limit period since (ts.take n) 0
      (fun t ht => hin t ((List.take_subset n ts) ht))
      (by rw [List.length_take, min_eq_left hn]; omega)
    rw [List.length_take, min_eq_left hn] at h
    simpa using h
  refine ⟨htake, ?_, ?_⟩
  · have h := htake ts.length le_rfl
    rw [List.take_length, hlen] at h
    exact h
  · exact ⟨_, Bucket.run_throw ⟨limit, period, since, limit⟩ t' hin' le_rfl⟩

theorem c3_witness :
    runList [1, 2] ⟨2, 60, 0, 0⟩ = (.ok (), ⟨2, 60, 0, 2⟩) ∧
    (∃ q : ℚ, Bucket.run 3 ⟨2, 60, 0, 2⟩ =
      (.error (.ratelimitError (some 429) "Too many requests" (some q) true),
       ⟨2, 60, 0, 2⟩)) :=
  ⟨(c3_window_fills_then_fails 2 60 0 [1, 2] 3 (by decide) (by decide)
      (by decide) (by decide)).2.1,
   (c3_window_fills_then_fails 2 60 0 [1, 2] 3 (by decide) (by decide)
      (by decide) (by decide)).2.2⟩

/-- Helper: `Map.set` followed by `Map.get` on the same key yields the
just-stored entry. -/
theorem mapSet_lookup_self (k : String) (v : CacheEntry)
    (m : List (String × CacheEntry)) : (mapSet k v m).lookup k = some v := by
  induction m with
  | nil => simp [mapSet, List.lookup]
  | cons p rest ih =>
    obtain ⟨k', v'⟩ := p
    by_cases h : k' = k
    · simp [mapSet, h, List.lookup]
    · simp [mapSet, if_neg h, List.lookup_cons, ih, beq_false_of_ne (Ne.symm h)]

/-- C8: `setCache(k, v)` at `t0` stores the entry with
`expires = t0 + cacheTime*1000`; an immediate `getCache(k)` returns `v`;
at any `t1` with `expires <= t1`, `getCache(k)` returns the absent marker
(`undefined`) while the entry itself is still in the map — `getCache`
never mutates the store (it is a pure reader by construction). -/
theorem c8_cache_ttl (st : ClientState) (k : String) (v : JSValue) (t0 t1 : ℤ)
    (hpos : 0 < st.cacheTime)
    (hexp : t0 + st.cacheTime * 1000 ≤ t1) :
    (setCache t0 k v st).cache.lookup k =
      some { item := v, expires := t0 + st.cacheTime * 1000 } ∧
    getCache t0 (setCache t0 k v st) k = v ∧
    getCache t1 (setCache t0 k v st) k = .undefined := by
  have hl : (setCache t0 k v st).cache.lookup k =
      some { item := v, expires := t0 + st.cacheTime * 1000 } := by
    simp only [setCache]
    exact mapSet_lookup_self k _ st.cache
  refine ⟨hl, ?_, ?_⟩
  · simp only [getCache, hl]
    rw [if_pos (show t0 + st.cacheTime * 1000 > t0 by omega)]
  · simp only [getCache, hl]
    rw [if_neg (show ¬ t0 + st.cacheTime * 1000 > t1 by omega)]

theorem c8_witness :
    (setCache 0 "d-1" (.num 7) initialState).cache.lookup "d-1" =
      some { item := .num 7, expires := 60000 } ∧
    getCache 0 (setCache 0 "d-1" (.num 7) initialState) "d-1" = .num 7 ∧
    getCache 60000 (setCache 0 "d-1" (.num 7) initialState) "d-1" = .undefined :=
  c8_cache_ttl initialState "d-1" (.num 7) 0 60000 (by decide) (by decide)

/-- Helper: `run` never changes the construction parameters of a bucket. -/
theorem Bucket.run_preserves (b : Bucket) (now : ℤ) :
    (Bucket.run now b).2.limitNo = b.limitNo ∧
    (Bucket.run now b).2.limitPeriod = b.limitPeriod := by
  unfold Bucket.run
  split
  · split <;> exact ⟨rfl, rfl⟩
  · exact ⟨rfl, rfl⟩

theorem respOk_404 : respOk 404 = false := by decide

theorem respOk_429 : respOk 429 = false := by decide

/-- Helper: when the global bucket throws, `makeRequest` propagates the
error without touching the cache or issuing a request. -/
theorem makeRequest_blocked (http : String → HttpResponse) (now : ℤ) (uri : String)
    (st : ClientState) (er : VerifyError) (b' : Bucket)
    (hrun : Bucket.run now st.globalRatelimit = (.error er, b')) :
    makeRequest http now uri st = (.error er, { st with globalRatelimit := b' }) := by
  simp only [makeRequest, hrun]

/-- Helper: when the global bucket admits, the request handed to the
collaborator is recorded with the headers object `{authorization: token}`,
whatever the response is. -/
theorem makeRequest_requests (http : String → HttpResponse) (now : ℤ) (uri : String)
    (st : ClientState) (g : Bucket)
    (hrun : Bucket.run now st.globalRatelimit = (.ok (), g)) :
    (makeRequest http now uri st).2.requests =
      st.requests ++ [requestOf st.token uri] := by
  simp only [makeRequest, hrun]
  split
  · rfl
  · split
    · split
      · rfl
      · rfl
    · split
      · rfl
      · split
        · rfl
        · rfl

/-- Helper: the 404 branch of `makeRequest` returns `undefined` (`none`)
after recording the request. -/
theorem makeRequest_404 (http : String → HttpResponse) (now : ℤ) (uri : String)
    (st : ClientState) (g : Bucket)
    (hrun : Bucket.run now st.globalRatelimit = (.ok (), g))
    (hstatus : (http uri).status = 404) :
    makeRequest http now uri st =
      (.ok none,
       { st with
         globalRatelimit := g
         requests := st.requests ++ [requestOf st.token uri] }) := by
  simp only [makeRequest, hrun, hstatus, respOk_404]
  norm_num

/-- Helper: the 429 branch of `makeRequest` triggers the global bucket
with `json.error.retryAfter || 3000` and throws `RatelimitError(json.error)`. -/
theorem makeRequest_429 (http : String → HttpResponse) (now : ℤ) (uri : String)
    (st : ClientState) (g : Bucket) (e : ErrObj)
    (hrun : Bucket.run now st.globalRatelimit = (.ok (), g))
    (hstatus : (http uri).status = 429)
    (herr : (http uri).body.error = some e) :
    makeRequest http now uri st =
      (.error (ratelimitErrorOf e),
       { st with
         globalRatelimit := Bucket.trigger (retryHint e) now g
         requests := st.requests ++ [requestOf st.token uri] }) := by
  simp only [makeRequest, hrun, hstatus, respOk_429, herr]
  norm_num

/-- Helper: the success branch of `makeRequest` returns the parsed body
after recording the request. -/
theorem makeRequest_ok (http : String → HttpResponse) (now : ℤ) (uri : String)
    (st : ClientState) (g : Bucket)
    (hrun : Bucket.run now st.globalRatelimit = (.ok (), g))
    (hok : respOk (http uri).status = true) :
    makeRequest http now uri st =
      (.ok (some (http uri).body),
       { st with
         globalRatelimit := g
         requests := st.requests ++ [requestOf st.token uri] }) := by
  simp only [makeRequest, hrun, hok]
  norm_num

/-- Helper: a cache-map miss makes `getCache` return `undefined`. -/
theorem getCache_none (now : ℤ) (st : ClientState) (k : String)
    (h : st.cache.lookup k = none) : getCache now st k = .undefined := by
  simp [getCache, h]

/-- Helper: an unexpired entry is returned by `getCache`. -/
theorem getCache_some (now : ℤ) (st : ClientState) (k : String) (en : CacheEntry)
    (h : st.cache.lookup k = some en) (hexp : en.expires > now) :
    getCache now st k = en.item := by
  simp [getCache, h, hexp]

/-- Helper: `getRoblox` on a cache miss with a 404 response returns
`undefined` and stores NOTHING in the cache (the guard `if (!full) return;`
exits before `setCache`). -/
theorem getRoblox_404 (http : String → HttpResponse) (now : ℤ) (id : String)
    (st : ClientState) (g : Bucket)
    (hmiss : truthy (getCache now st ("d-" ++ id)) = false)
    (hrun : Bucket.run now st.globalRatelimit = (.ok (), g))
    (hstatus : (http ("/api/roblox/" ++ id)).status = 404) :
    getRoblox http now id st =
      (.ok .undefined,
       { st with
         globalRatelimit := g
         requests := st.requests ++ [requestOf st.token ("/api/roblox/" ++ id)] }) := by
  have hm := makeRequest_404 http now ("/api/roblox/" ++ id) st g hrun hstatus
  simp [getRoblox, hmiss, hm]

/-- Helper: `getRoblox` on a cache miss with a 429 response propagates the
remote `RatelimitError` after the global bucket was triggered. -/
theorem getRoblox_429 (http : String → HttpResponse) (now : ℤ) (id : String)
    (st : ClientState) (g : Bucket) (e : ErrObj)
    (hmiss : truthy (getCache now st ("d-" ++ id)) = false)
    (hrun : Bucket.run now st.globalRatelimit = (.ok (), g))
    (hstatus : (http ("/api/roblox/" ++ id)).status = 429)
    (herr : (http ("/api/roblox/" ++ id)).body.error = some e) :
    getRoblox http now id st =
      (.error (ratelimitErrorOf e),
       { st with
         globalRatelimit := Bucket.trigger (retryHint e) now g
         requests := st.requests ++ [requestOf st.token ("/api/roblox/" ++ id)] }) := by
  have hm := makeRequest_429 http now ("/api/roblox/" ++ id) st g e hrun hstatus herr
  simp [getRoblox, hmiss, hm]

/-- Helper: `getRoblox` on a cache miss propagates a local rate-limit
throw from the global bucket without issuing a request. -/
theorem getRoblox_blocked (http : String → HttpResponse) (now : ℤ) (id : String)
    (st : ClientState) (er : VerifyError) (b' : Bucket)
    (hmiss : truthy (getCache now st ("d-" ++ id)) = false)
    (hrun : Bucket.run now st.globalRatelimit = (.error er, b')) :
    getRoblox http now id st = (.error er, { st with globalRatelimit := b' }) := by
  have hm := makeRequest_blocked http now ("/api/roblox/" ++ id) st er b' hrun
  simp [getRoblox, hmiss, hm]

/-- Helper: on a cache miss, whatever the response, `getRoblox` leaves the
request trace exactly as `makeRequest` left it. -/
theorem getRoblox_requests_on_miss (http : String → HttpResponse) (now : ℤ) (id : String)
    (st : ClientState)
    (hmiss : truthy (getCache now st ("d-" ++ id)) = false) :
    (getRoblox http now id st).2.requests =
      (makeRequest http now ("/api/roblox/" ++ id) st).2.requests := by
  rcases hm : makeRequest http now ("/api/roblox/" ++ id) st with ⟨o, st'⟩
  match o with
  | .error e => simp [getRoblox, hmiss, hm]
  | .ok none => simp [getRoblox, hmiss, hm]
  | .ok (some full) => simp [getRoblox, hmiss, hm, setCache]

/-- Helper: on a cache miss with the reverse bucket admitting, whatever
the response, `getDiscord` leaves the request trace exactly as
`makeRequest` left it. -/
theorem getDiscord_requests_on_miss (http : String → HttpResponse) (now : ℤ) (id : String)
    (st : ClientState) (r : Bucket)
    (hmiss : truthy (getCache now st ("r-" ++ id)) = false)
    (hrev : Bucket.run now st.reverseRatelimit = (.ok (), r)) :
    (getDiscord http now id st).2.requests =
      (makeRequest http now ("/api/reverse/" ++ id)
        { st with reverseRatelimit := r }).2.requests := by
  rcases hm : makeRequest http now ("/api/reverse/" ++ id) { st with reverseRatelimit := r }
    with ⟨o, st'⟩
  match o with
  | .error e => simp [getDiscord, hmiss, hrev, hm]
  | .ok none => simp [getDiscord, hmiss, hrev, hm]
  | .ok (some full) => simp [getDiscord, hmiss, hrev, hm, setCache]

/-- Helper: `getDiscord` on a cache miss with both buckets admitting and a
2xx response: both counters are consumed, the request is issued, and the
`discordId` field is cached and returned. -/
theorem getDiscord_ok (http : String → HttpResponse) (now : ℤ) (id : String)
    (st : ClientState) (r g : Bucket)
    (hmiss : truthy (getCache now st ("r-" ++ id)) = false)
    (hrev : Bucket.run now st.reverseRatelimit = (.ok (), r))
    (hglob : Bucket.run now st.globalRatelimit = (.ok (), g))
    (hok : respOk (http ("/api/reverse/" ++ id)).status = true) :
    getDiscord http now id st =
      (.ok (http ("/api/reverse/" ++ id)).body.discordId,
       setCache now ("r-" ++ id) (http ("/api/reverse/" ++ id)).body.discordId
         { st with
           reverseRatelimit := r
           globalRatelimit := g
           requests := st.requests ++ [requestOf st.token ("/api/reverse/" ++ id)] }) := by
  have hm := makeRequest_ok http now ("/api/reverse/" ++ id)
    { st with reverseRatelimit := r } g hglob hok
  simp [getDiscord, hmiss, hrev, hm]

/-- Helper: `getDiscord` on a cache miss where the reverse bucket admits
but the global bucket throws: the reverse counter is consumed, the error
propagates, and no request is issued. -/
theorem getDiscord_global_blocked (http : String → HttpResponse) (now : ℤ) (id : String)
    (st : ClientState) (r : Bucket) (er : VerifyError) (b' : Bucket)
    (hmiss : truthy (getCache now st ("r-" ++ id)) = false)
    (hrev : Bucket.run now st.reverseRatelimit = (.ok (), r))
    (hglob : Bucket.run now st.globalRatelimit = (.error er, b')) :
    getDiscord http now id st =
      (.error er, { st with reverseRatelimit := r, globalRatelimit := b' }) := by
  have hm := makeRequest_blocked http now ("/api/reverse/" ++ id)
    { st with reverseRatelimit := r } er b' hglob
  simp [getDiscord, hmiss, hrev, hm]

/-- C1 (counterexample): with the collaborator answering 404, a forward
lookup returns the not-found value, but NOTHING is stored in the cache
(the early `if (!full) return;` precedes `setCache`), and a second lookup
for the same id 10 seconds later — well within the 60 s TTL — issues a
SECOND network request (the trace has two requests). -/
theorem c1_counterexample :
    (getRoblox http404 100000 "123" initialState).1 = .ok .undefined ∧
    (getRoblox http404 100000 "123" initialState).2.cache = [] ∧
    (getRoblox http404 110000 "123"
      (getRoblox http404 100000 "123" initialState).2).2.requests.length = 2 := by
  exact ⟨rfl, rfl, rfl⟩

/-- C1 (amended): if the collaborator returns status 404 for a forward
lookup, `getRoblox` returns the not-found value (not an error); the miss
is NOT cached (the cache is left unchanged), and a second `getRoblox` for
the same id within the TTL again returns not-found but issues a second
network request. -/
theorem c1_amended_404_not_cached (http : String → HttpResponse) (id : String)
    (st : ClientState) (t1 t2 : ℤ) (g1 g2 : Bucket)
    (hmiss : st.cache.lookup ("d-" ++ id) = none)
    (hstatus : (http ("/api/roblox/" ++ id)).status = 404)
    (hrun1 : Bucket.run t1 st.globalRatelimit = (.ok (), g1))
    (hrun2 : Bucket.run t2 g1 = (.ok (), g2)) :
    (getRoblox http t1 id st).1 = .ok .undefined ∧
    (getRoblox http t1 id st).2.cache = st.cache ∧
    (getRoblox http t1 id st).2.requests.length = st.requests.length + 1 ∧
    (getRoblox http t2 id (getRoblox http t1 id st).2).1 = .ok .undefined ∧
    (getRoblox http t2 id (getRoblox http t1 id st).2).2.requests.length
      = st.requests.length + 2 := by
  have hm1 : truthy (getCache t1 st ("d-" ++ id)) = false := by
    rw [getCache_none t1 st _ hmiss]; rfl
  have h1 := getRoblox_404 http t1 id st g1 hm1 hrun1 hstatus
  have hm2 : truthy (getCache t2 (getRoblox http t1 id st).2 ("d-" ++ id)) = false := by
    have hg : getCache t2 (getRoblox http t1 id st).2 ("d-" ++ id) = .undefined := by
      rw [h1]; exact getCache_none t2 _ _ hmiss
    rw [hg]; rfl
  have h2 := getRoblox_404 http t2 id (getRoblox http t1 id st).2 g2 hm2
    (by rw [h1]; exact hrun2) hstatus
  refine ⟨by rw [h1], by rw [h1], by rw [h1]; simp, by rw [h2], ?_⟩
  rw [h2, h1]
  simp

theorem c1_witness :
    (getRoblox http404 100000 "123" initialState).1 = .ok .undefined ∧
    (getRoblox http404 100000 "123" initialState).2.cache = initialState.cache ∧
    (getRoblox http404 100000 "123" initialState).2.requests.length
      = initialState.requests.length + 1 ∧
    (getRoblox http404 110000 "123" (getRoblox http404 100000 "123" initialState).2).1
      = .ok .undefined ∧
    (getRoblox http404 110000 "123"
      (getRoblox http404 100000 "123" initialState).2).2.requests.length
      = initialState.requests.length + 2 :=
  c1_amended_404_not_cached http404 "123" initialState 100000 110000
    ⟨60, 60, 100000, 1⟩ ⟨60, 60, 100000, 2⟩ rfl rfl rfl rfl

/-- C5 (counterexample): with NO token configured (here `setOptions` is
called but without a token, so the `token` variable stays undefined), the
request handed to the collaborator still carries the `authorization` key —
with JS value `undefined` — because `makeRequest` builds
`{headers: {authorization: token}}` unconditionally.  (node-fetch 2
serialises every own key of a plain headers object, stringifying non-string
values, so the entry is not dropped at the source boundary.) -/
theorem c5_counterexample :
    (setOptions ⟨some true, none, none⟩ initialState).token = none ∧
    (makeRequest httpOkEmpty 100000 "/api/roblox/1"
      (setOptions ⟨some true, none, none⟩ initialState)).2.requests =
      [{ url := "https://verify.nezto.re/api/roblox/1"
         headers := [("authorization", JSValue.undefined)] }] := by
  exact ⟨rfl, rfl⟩

/-- C5 (amended): whenever the global bucket admits, `makeRequest` records
exactly one request whose headers object always contains the
`authorization` key; its value is the configured token when one was set
via `setOptions` and JS `undefined` when none was configured — the key
itself is never omitted. -/
theorem c5_amended_header_always_present (http : String → HttpResponse) (now : ℤ)
    (uri : String) (st : ClientState) (g : Bucket)
    (hrun : Bucket.run now st.globalRatelimit = (.ok (), g)) :
    (makeRequest http now uri st).2.requests =
      st.requests ++ [{ url := BASE_URL ++ uri
                        headers := [("authorization", jsOfOptStr st.token)] }] ∧
    (jsOfOptStr st.token = .undefined ↔ st.token = none) ∧
    (∀ tok : String, jsOfOptStr st.token = .str tok ↔ st.token = some tok) := by
  refine ⟨?_, ?_, ?_⟩
  · rw [makeRequest_requests http now uri st g hrun]; rfl
  · cases h : st.token <;> simp [jsOfOptStr]
  · intro tok; cases h : st.token <;> simp [jsOfOptStr]

theorem c5_witness :
    (makeRequest httpOkEmpty 100000 "/api/roblox/1" initialState).2.requests =
      initialState.requests ++ [{ url := BASE_URL ++ "/api/roblox/1"
                                  headers := [("authorization", jsOfOptStr initialState.token)] }] ∧
    (jsOfOptStr initialState.token = .undefined ↔ initialState.token = none) ∧
    (∀ tok : String, jsOfOptStr initialState.token = .str tok
      ↔ initialState.token = some tok) :=
  c5_amended_header_always_present httpOkEmpty 100000 "/api/roblox/1" initialState
    ⟨60, 60, 100000, 1⟩ rfl

/-- C4: a 429 response makes `makeRequest` trigger the GLOBAL bucket with
the remote `retryAfter` hint (3000 s when the hint is absent) and raise
the remote `RatelimitError` with `isLocal = false`; every immediately
following forward lookup fails locally (`isLocal = true`) WITHOUT a
network call, until `retryAfter + limitPeriod` seconds after the trigger,
at which point the bucket admits again. -/
theorem c4_remote_429_arms_bucket (http : String → HttpResponse) (id : String)
    (st : ClientState) (t0 t' t'' : ℤ) (g : Bucket) (e : ErrObj)
    (hmiss : st.cache.lookup ("d-" ++ id) = none)
    (hstatus : (http ("/api/roblox/" ++ id)).status = 429)
    (herr : (http ("/api/roblox/" ++ id)).body.error = some e)
    (hloc : e.isLocal = none)
    (hrun : Bucket.run t0 st.globalRatelimit = (.ok (), g))
    (ht' : t' < t0 + (retryHint e + st.globalRatelimit.limitPeriod) * 1000)
    (ht'' : t0 + (retryHint e + st.globalRatelimit.limitPeriod) * 1000 ≤ t'') :
    (getRoblox http t0 id st).1 =
      .error (.ratelimitError e.status (errMessage e)
        (e.retryAfter.map (fun r => (r : ℚ))) false) ∧
    (getRoblox http t0 id st).2.globalRatelimit = Bucket.trigger (retryHint e) t0 g ∧
    (getRoblox http t0 id st).2.requests.length = st.requests.length + 1 ∧
    (e.retryAfter = none → retryHint e = 3000) ∧
    (∃ q : ℚ, (getRoblox http t' id (getRoblox http t0 id st).2).1 =
      .error (.ratelimitError (some 429) "Too many requests" (some q) true)) ∧
    (getRoblox http t' id (getRoblox http t0 id st).2).2.requests =
      (getRoblox http t0 id st).2.requests ∧
    (Bucket.run t'' (getRoblox http t0 id st).2.globalRatelimit).1 = .ok () := by
  have hm0 : truthy (getCache t0 st ("d-" ++ id)) = false := by
    rw [getCache_none t0 st _ hmiss]; rfl
  have h1 := getRoblox_429 http t0 id st g e hm0 hrun hstatus herr
  have hp := Bucket.run_preserves st.globalRatelimit t0
  rw [hrun] at hp
  have hper : g.limitPeriod = st.globalRatelimit.limitPeriod := hp.2
  have hwin : t' - (Bucket.trigger (retryHint e) t0 g).since
      < (Bucket.trigger (retryHint e) t0 g).limitPeriod * 1000 := by
    rw [trigger_since, trigger_limitPeriod, hper]; omega
  have hthrow := Bucket.run_throw (Bucket.trigger (retryHint e) t0 g) t' hwin
    (by rw [trigger_requestsMade, trigger_limitNo])
  have hm1 : truthy (getCache t' (getRoblox http t0 id st).2 ("d-" ++ id)) = false := by
    have hg : getCache t' (getRoblox http t0 id st).2 ("d-" ++ id) = .undefined := by
      rw [h1]; exact getCache_none t' _ _ hmiss
    rw [hg]; rfl
  have h2 := getRoblox_blocked http t' id (getRoblox http t0 id st).2 _ _ hm1
    (by rw [h1]; exact hthrow)
  have hreset := Bucket.run_reset (Bucket.trigger (retryHint e) t0 g) t''
    (by rw [trigger_since, trigger_limitPeriod, hper]; omega)
  refine ⟨?_, by rw [h1], by rw [h1]; simp, ?_, ⟨_, by rw [h2]⟩, ?_, ?_⟩
  · rw [h1]; simp [ratelimitErrorOf, hloc]
  · intro h; simp [retryHint, h]
  · rw [h2, h1]
  · rw [h1]
    rw [hreset]

theorem c4_witness :
    (getRoblox http429r5 100000 "123" initialState).1 =
      .error (.ratelimitError none "undefined: Verification API Error" (some 5) false) ∧
    (∃ q : ℚ, (getRoblox http429r5 100000 "123"
        (getRoblox http429r5 100000 "123" initialState).2).1 =
      .error (.ratelimitError (some 429) "Too many requests" (some q) true)) ∧
    (getRoblox http429r5 100000 "123"
        (getRoblox http429r5 100000 "123" initialState).2).2.requests =
      (getRoblox http429r5 100000 "123" initialState).2.requests ∧
    (Bucket.run 165000
        (getRoblox http429r5 100000 "123" initialState).2.globalRatelimit).1 = .ok () := by
  have h := c4_remote_429_arms_bucket http429r5 "123" initialState 100000 100000 165000
    ⟨60, 60, 100000, 1⟩ ⟨none, none, some 5, none⟩ rfl rfl rfl rfl rfl (by decide) (by decide)
  refine ⟨?_, h.2.2.2.2.1, h.2.2.2.2.2.1, h.2.2.2.2.2.2⟩
  simpa [errMessage, jsNumToString] using h.1

/-- C9: on a cache miss, `getDiscord` runs the reverse bucket first and
then (inside `makeRequest`) the global bucket: when both admit within
their windows, BOTH counters are incremented by one and one request is
issued; when the reverse bucket is below its limit but the global bucket
is exhausted, `getDiscord` fails with the LOCAL `RatelimitError` of the
global bucket without issuing a request — the reverse counter having
already been consumed. -/
theorem c9_reverse_consumes_both (http : String → HttpResponse) (id : String)
    (st : ClientState) (t : ℤ)
    (hmiss : st.cache.lookup ("r-" ++ id) = none)
    (hrevwin : t - st.reverseRatelimit.since < st.reverseRatelimit.limitPeriod * 1000)
    (hrevcnt : st.reverseRatelimit.requestsMade < st.reverseRatelimit.limitNo)
    (hglobwin : t - st.globalRatelimit.since < st.globalRatelimit.limitPeriod * 1000) :
    (st.globalRatelimit.requestsMade < st.globalRatelimit.limitNo →
      respOk (http ("/api/reverse/" ++ id)).status = true →
      (getDiscord http t id st).2.reverseRatelimit.requestsMade
          = st.reverseRatelimit.requestsMade + 1 ∧
      (getDiscord http t id st).2.globalRatelimit.requestsMade
          = st.globalRatelimit.requestsMade + 1 ∧
      (getDiscord http t id st).2.requests.length = st.requests.length + 1) ∧
    (st.globalRatelimit.limitNo ≤ st.globalRatelimit.requestsMade →
      (∃ q : ℚ, (getDiscord http t id st).1 =
        .error (.ratelimitError (some 429) "Too many requests" (some q) true)) ∧
      (getDiscord http t id st).2.requests = st.requests ∧
      (getDiscord http t id st).2.reverseRatelimit.requestsMade
          = st.reverseRatelimit.requestsMade + 1 ∧
      (getDiscord http t id st).2.globalRatelimit = st.globalRatelimit) := by
  have hm : truthy (getCache t st ("r-" ++ id)) = false := by
    rw [getCache_none t st _ hmiss]; rfl
  have hrev := Bucket.run_incr st.reverseRatelimit t hrevwin hrevcnt
  constructor
  · intro hglobcnt hok
    have hglob := Bucket.run_incr st.globalRatelimit t hglobwin hglobcnt
    have h := getDiscord_ok http t id st _ _ hm hrev hglob hok
    rw [h]
    refine ⟨rfl, rfl, by simp [setCache]⟩
  · intro hglobex
    have hglob := Bucket.run_throw st.globalRatelimit t hglobwin hglobex
    have h := getDiscord_global_blocked http t id st _ _ _ hm hrev hglob
    rw [h]
    exact ⟨⟨_, rfl⟩, rfl, rfl, rfl⟩

theorem c9_witness :
    ((getDiscord httpOkEmpty 1000 "9" initialState).2.reverseRatelimit.requestsMade = 1 ∧
     (getDiscord httpOkEmpty 1000 "9" initialState).2.globalRatelimit.requestsMade = 1 ∧
     (getDiscord httpOkEmpty 1000 "9" initialState).2.requests.length = 1) ∧
    ((∃ q : ℚ, (getDiscord httpOkEmpty 1000 "9"
        { initialState with globalRatelimit := ⟨60, 60, 0, 60⟩ }).1 =
      .error (.ratelimitError (some 429) "Too many requests" (some q) true)) ∧
     (getDiscord httpOkEmpty 1000 "9"
        { initialState with globalRatelimit := ⟨60, 60, 0, 60⟩ }).2.requests = [] ∧
     (getDiscord httpOkEmpty 1000 "9"
        { initialState with globalRatelimit := ⟨60, 60, 0, 60⟩ }).2.globalRatelimit
        = ⟨60, 60, 0, 60⟩) := by
  have h1 := (c9_reverse_consumes_both httpOkEmpty "9" initialState 1000
    rfl (by decide) (by decide) (by decide)).1 (by decide) rfl
  have h2 := (c9_reverse_consumes_both httpOkEmpty "9"
    { initialState with globalRatelimit := ⟨60, 60, 0, 60⟩ } 1000
    rfl (by decide) (by decide) (by decide)).2 (by decide)
  exact ⟨by simpa using h1, ⟨h2.1, h2.2.1, h2.2.2.2⟩⟩

/-- C10: a cached FALSY value (JS `undefined`, `0`, `""`, …) under a still
valid TTL does not short-circuit a lookup: the `if (cachedItem) return
cachedItem;` guard falls through, so `getRoblox` (and `getDiscord`) issue
a new network request even though an unexpired entry is present. -/
theorem c10_falsy_cached_is_miss (http : String → HttpResponse) (t : ℤ)
    (st : ClientState) (id : String) (en : CacheEntry)
    (hfalsy : truthy en.item = false) (hexp : en.expires > t) :
    (st.cache.lookup ("d-" ++ id) = some en →
      (Bucket.run t st.globalRatelimit).1 = .ok () →
      (getRoblox http t id st).2.requests.length = st.requests.length + 1) ∧
    (st.cache.lookup ("r-" ++ id) = some en →
      (Bucket.run t st.reverseRatelimit).1 = .ok () →
      (Bucket.run t st.globalRatelimit).1 = .ok () →
      (getDiscord http t id st).2.requests.length = st.requests.length + 1) := by
  constructor
  · intro hentry hrun
    have hmiss : truthy (getCache t st ("d-" ++ id)) = false := by
      rw [getCache_some t st _ en hentry hexp]; exact hfalsy
    rcases hb : Bucket.run t st.globalRatelimit with ⟨o, g⟩
    rw [hb] at hrun
    simp only at hrun
    subst hrun
    rw [getRoblox_requests_on_miss http t id st hmiss,
      makeRequest_requests http t _ st g hb]
    simp
  · intro hentry hrev hrun
    have hmiss : truthy (getCache t st ("r-" ++ id)) = false := by
      rw [getCache_some t st _ en hentry hexp]; exact hfalsy
    rcases hbr : Bucket.run t st.reverseRatelimit with ⟨o, r⟩
    rw [hbr] at hrev
    simp only at hrev
    subst hrev
    rcases hb : Bucket.run t st.globalRatelimit with ⟨o', g⟩
    rw [hb] at hrun
    simp only at hrun
    subst hrun
    rw [getDiscord_requests_on_miss http t id st r hmiss hbr,
      makeRequest_requests http t _ { st with reverseRatelimit := r } g hb]
    simp

theorem c10_witness :
    (setCache 0 "d-5" .undefined initialState).cache.lookup "d-5" =
      some { item := .undefined, expires := 60000 } ∧
    (getRoblox httpOkEmpty 1000 "5"
      (setCache 0 "d-5" .undefined initialState)).2.requests.length = 1 := by
  have h := (c10_falsy_cached_is_miss httpOkEmpty 1000
    (setCache 0 "d-5" .undefined initialState) "5"
    { item := .undefined, expires := 60000 } rfl (by decide)).1 rfl rfl
  exact ⟨rfl, by simpa using h⟩
